import Mathlib

/-!
Verification development for the Drive2Chat retrieval-augmented QA pipeline
(src/app.py).  Texts are modelled as lists of characters (Python strings are
sequences of code points), embedding vectors as lists of rationals, and every
external collaborator (file storage, embedding service, vector store,
generative model) as an oracle field of an environment record.  Fallible
oracle calls return an Except value; a Python `raise` that escapes a function
is modelled by the error constructor.
-/

namespace Drive2Chat

/-- Python `range(start, stop, step)` for a positive step, as the closed-form
list of its elements. -/
def pyRange (start stop step : Nat) : List Nat :=
  (List.range ((stop - start + step - 1) / step)).map (fun k => start + k * step)

/-- Python slice `text[i:j]` for 0 ≤ i ≤ j (the only form the code uses). -/
def pySlice (text : List Char) (i j : Nat) : List Char :=
  (text.drop i).take (j - i)

/-- `chunk_text(text, max_chars=30000)` from src/app.py line 74:
the comprehension `[text[i:i+max_chars] for i in range(0, len(text), max_chars)]`. -/
def chunk_text (text : List Char) (max_chars : Nat := 30000) : List (List Char) :=
  (pyRange 0 text.length max_chars).map (fun i => pySlice text i (i + max_chars))

/-- Python `str.strip()`: drop leading and trailing whitespace. -/
def py_strip (s : List Char) : List Char :=
  ((s.dropWhile Char.isWhitespace).reverse.dropWhile Char.isWhitespace).reverse

/-- `VECTOR_SIZE = 768` from src/app.py line 21. -/
def VECTOR_SIZE : Nat := 768

/-- `get_embedding(text)` from src/app.py lines 62-72.  The external embedding
call is the oracle `embed`; on success its vector is returned, and any raised
exception is caught and replaced by `np.zeros(VECTOR_SIZE)`. -/
def get_embedding (embed : List Char → Except String (List ℚ)) (text : List Char) :
    List ℚ :=
  match embed text with
  | .ok v => v
  | .error _ => List.replicate VECTOR_SIZE 0

/-- `np.mean(vs, axis=0)` for a non-empty list of equal-length rows: component
j of the result is the sum of the j-th components divided by the number of
rows.  (numpy rejects ragged input; `getD` with default 0 merely totalises the
definition, and the theorems that use it carry equal-length hypotheses.) -/
def np_mean (vs : List (List ℚ)) : List ℚ :=
  match vs with
  | [] => []
  | v :: _ =>
      (List.range v.length).map
        (fun j => (vs.map (fun w => w.getD j 0)).sum / (vs.length : ℚ))

/-- The element-wise mean in the words of the spec (§4.4 step 6): a vector of
dimensionality d whose j-th component is the sum of the j-th components of the
input vectors divided by their count. -/
def mean_spec (vs : List (List ℚ)) (d : Nat) : List ℚ :=
  (List.range d).map
    (fun j => (vs.map (fun w => w.getD j 0)).sum / (vs.length : ℚ))

/-- One entry of the file listing: `files(id, name, mimeType)`.  Absent keys
are `none`; `item.get("name", "unnamed")` is resolved by whoever builds the
record, the default being irrelevant to the claims. -/
structure Item where
  id : Option (List Char)
  name : List Char
  mimeType : Option (List Char)
deriving DecidableEq

/-- Payload stored with a point: `{"name": ..., "content": content[:3000]}`. -/
structure Payload where
  name : List Char
  content : List Char
deriving DecidableEq

/-- A qdrant `PointStruct(id, vector, payload)`. -/
structure PointStruct where
  id : Nat
  vector : List ℚ
  payload : Payload
deriving DecidableEq

/-- Observable external effects of an indexing pass, in program order:
a download request for a file, an embedding call for a chunk, and an upsert
call for a point. -/
inductive Event where
  | fetched (file_id : List Char)
  | embedded (chunk : List Char)
  | upserted (p : PointStruct)
deriving DecidableEq

/-- True exactly on `Event.embedded` events. -/
def isEmbeddedEv : Event → Bool
  | .embedded _ => true
  | _ => false

/-- True exactly on `Event.upserted` events. -/
def isUpsertedEv : Event → Bool
  | .upserted _ => true
  | _ => false

/-- Environment of external collaborators for the indexer.  `pyhash` is the
string hash of the running interpreter (salted per process, see `pyHash_bytes`
below); `fetch` is the byte download inside `read_file`; `embed` is the
embedding call inside `get_embedding`; `upsert` is the vector-store upsert.
The one `files().list(...)` call is passed to `process_drive_files`
separately. -/
structure Env where
  pyhash : List Char → Int
  fetch : List Char → List Char → Except String (List Char)
  embed : List Char → Except String (List ℚ)
  upsert : PointStruct → Except String Unit

/-- `read_file(file_id, mime_type, service)` from src/app.py lines 77-92:
download (export or raw, folded into the `fetch` oracle), decode, strip; any
raised exception is caught and the empty string returned. -/
def read_file (env : Env) (file_id mime_type : List Char) : List Char :=
  match env.fetch file_id mime_type with
  | .ok content => py_strip content
  | .error _ => []

/-- `allowed_types` from src/app.py lines 103-110. -/
def allowed_types : List (List Char) :=
  [("application/vnd.google-apps.document").toList,
   ("application/vnd.google-apps.spreadsheet").toList,
   ("application/vnd.google-apps.presentation").toList,
   ("application/pdf").toList,
   ("application/vnd.openxmlformats-officedocument.wordprocessingml.document").toList,
   ("text/plain").toList]

/-- The point built at src/app.py lines 141-152 for a fetched document:
`point_id = abs(hash(file_id)) % (10**18)`, the vector is
`np.mean(embeddings, axis=0)` over the per-chunk vectors (zero sentinels
included, since `get_embedding` never returns `None`), and the payload stores
the name and the first 3000 characters of the content. -/
def mkPoint (env : Env) (name file_id content : List Char) : PointStruct :=
  { id := (env.pyhash file_id).natAbs % 10 ^ 18,
    vector := np_mean ((chunk_text content).map (get_embedding env.embed)),
    payload := { name := name, content := content.take 3000 } }

/-- src/app.py lines 129-158: the tail of the loop body once the content is
known and long enough.  The embeddings list is empty exactly when there are
no chunks; otherwise the point is averaged and upserted.  Only the upsert
call can raise here (the embed failures were caught in `get_embedding`); an
upserted event records that the call was issued, and an error from it escapes
the loop body. -/
def processContent (env : Env) (name file_id content : List Char) :
    List Event × Except String Unit :=
  if (chunk_text content).map (get_embedding env.embed) = [] then
    (Event.fetched file_id :: (chunk_text content).map Event.embedded, .ok ())
  else
    match env.upsert (mkPoint env name file_id content) with
    | .ok _ =>
        ((Event.fetched file_id :: (chunk_text content).map Event.embedded)
          ++ [.upserted (mkPoint env name file_id content)], .ok ())
    | .error e =>
        ((Event.fetched file_id :: (chunk_text content).map Event.embedded)
          ++ [.upserted (mkPoint env name file_id content)], .error e)

/-- src/app.py lines 124-127: fetch the content (the same pure value
`read_file env file_id mt` names the single download the code performs) and
skip the file when fewer than 20 characters came back. -/
def processFile (env : Env) (name file_id mt : List Char) :
    List Event × Except String Unit :=
  if (read_file env file_id mt).length < 20 then ([.fetched file_id], .ok ())
  else processContent env name file_id (read_file env file_id mt)

/-- The body of the `for idx, item in enumerate(items, 1)` loop of
`process_drive_files` (src/app.py lines 112-158), returning the external
effects it performs and `ok` if it ran to completion (possibly via a
`continue`) or `error` if an exception escaped it.  `if not file_id` skips
both a missing id and an empty-string id. -/
def processItem (env : Env) (item : Item) : List Event × Except String Unit :=
  match item.mimeType with
  | none => ([], .ok ())
  | some mt =>
    if mt ∉ allowed_types then ([], .ok ())
    else
      match item.id with
      | none => ([], .ok ())
      | some file_id =>
        if file_id = [] then ([], .ok ())
        else processFile env item.name file_id mt

/-- The loop of `process_drive_files` over the listed items: an exception
escaping one body leaves the loop (and is re-raised by the outer handler). -/
def processItems (env : Env) : List Item → List Event × Except String Unit
  | [] => ([], .ok ())
  | item :: rest =>
    match processItem env item with
    | (evs, .error e) => (evs, .error e)
    | (evs, .ok _) =>
      let tail := processItems env rest
      (evs ++ tail.1, tail.2)

/-- `process_drive_files(service, qdrant_client)` from src/app.py lines
94-162, with the result of the single `files().list(pageSize=100, ...)`
request passed in.  The surrounding `try` prints and then RE-RAISES any
exception, so an error from the listing call or from the loop propagates to
the caller. -/
def process_drive_files (env : Env) (listing : Except String (List Item)) :
    List Event × Except String Unit :=
  match listing with
  | .error e => ([], .error e)
  | .ok items => processItems env items

/-- A file in the storage account, as the listing endpoint sees it. -/
structure DriveFile where
  id : Option (List Char)
  name : List Char
  mimeType : Option (List Char)
  trashed : Bool
deriving DecidableEq

/-- Modelled from the spec: the external file-storage listing endpoint
(spec §6, "list files (paged, filtered to non-trashed, returning
id/name/content-type)").  A single page request with `pageSize` and
`q="trashed=false"` returns at most `pageSize` of the account's non-trashed
files, in order; further files are only reachable through follow-up page
requests, which `process_drive_files` never makes (src/app.py lines 96-100
issue exactly one request and ignore any next-page token). -/
def drive_list (account : List DriveFile) (pageSize : Nat) : List Item :=
  ((account.filter (fun f => !f.trashed)).take pageSize).map
    (fun f => { id := f.id, name := f.name, mimeType := f.mimeType })

/-- A scored match returned by the vector-store search. -/
structure ScoredPoint where
  score : ℚ
  payload : Payload
deriving DecidableEq

/-- Environment for the query path: the embedding oracle and the vector-store
search call (`qdrant_client.search(collection, query_vector, limit)`). -/
structure SearchEnv where
  embed : List Char → Except String (List ℚ)
  search : List ℚ → Nat → Except String (List ScoredPoint)

/-- `search_qdrant(qdrant_client, query, top_k=3)` from src/app.py lines
164-180: embed the query; if the vector is all zeros (`np.all(... == 0)`,
which includes the failure sentinel) return `[]`; otherwise search, and
return `[]` if the search call raises.  (`query_embedding is None` is
unreachable: `get_embedding` always returns a vector.) -/
def search_qdrant (env : SearchEnv) (query : List Char) (top_k : Nat := 3) :
    List ScoredPoint :=
  let query_embedding := get_embedding env.embed query
  if query_embedding.all (fun x => x == 0) then []
  else
    match env.search query_embedding top_k with
    | .ok r => r
    | .error _ => []

/-- Environment for answer generation: the generative-model call, mapping a
prompt to `some` response text (the `response.text` attribute) or `none`
when the response has no text attribute; an error models a raised exception. -/
structure GenEnv where
  generate : List Char → Except String (Option (List Char))

/-- The f-string prompt of `generate_answer` (src/app.py lines 185-193), with
the already-truncated context and the query inserted. -/
def build_prompt (query context : List Char) : List Char :=
  ("\nBased on the following context, answer the question clearly and precisely.\nIf the answer is not found in the context, say that the information is not available.\n\nContext:\n").toList
    ++ context
    ++ ("\n\nQuestion: ").toList ++ query ++ ("\n").toList

/-- `generate_answer(query, context)` from src/app.py lines 182-201: insert
`context[:8000]` into the fixed template, call the model; return the stripped
response text when present and non-empty after stripping, the fixed fallback
string when it is absent or empty, and the fixed error string when the call
raises. -/
def generate_answer (env : GenEnv) (query context : List Char) : List Char :=
  match env.generate (build_prompt query (context.take 8000)) with
  | .ok (some t) =>
      if py_strip t = [] then ("Could not generate a clear answer.").toList
      else py_strip t
  | .ok none => ("Could not generate a clear answer.").toList
  | .error _ => ("An error occurred while generating the answer.").toList

/-! ### The CPython string hash used at src/app.py line 141

`point_id = abs(hash(file_id)) % (10**18)` uses the interpreter built-in
`hash` on a str.  Since CPython 3.4 string hashing is salted: the SipHash key
is either drawn at random at interpreter start (the default) or derived from
the `PYTHONHASHSEED` environment value.  CPython 3.11+ uses SipHash-1-3
(Python/pyhash.c); the functions below transcribe it over naturals reduced
modulo 2^64.  The model was checked against a real CPython 3.11 interpreter:
with seed 0 `hash("a") = 4644417185603328019`, with seed 1
`hash("a") = -3012895188637184397`. -/

/-- 64-bit rotate left of `x < 2^64` by `b < 64` bits. -/
def rotl64 (x b : Nat) : Nat :=
  ((x <<< b) % 2 ^ 64) ||| (x >>> (64 - b))

/-- 64-bit wrapping addition. -/
def add64 (a b : Nat) : Nat := (a + b) % 2 ^ 64

/-- The four 64-bit words of the SipHash state. -/
structure SipState where
  v0 : Nat
  v1 : Nat
  v2 : Nat
  v3 : Nat

/-- `SINGLE_ROUND` of Python/pyhash.c: `HALF_ROUND(v0,v1,v2,v3,13,16)` then
`HALF_ROUND(v2,v1,v0,v3,17,21)`. -/
def sipRound (s : SipState) : SipState :=
  let v0 := add64 s.v0 s.v1
  let v2 := add64 s.v2 s.v3
  let v1 := rotl64 s.v1 13 ^^^ v0
  let v3 := rotl64 s.v3 16 ^^^ v2
  let v0 := rotl64 v0 32
  let v2 := add64 v2 v1
  let v0 := add64 v0 v3
  let v1 := rotl64 v1 17 ^^^ v2
  let v3 := rotl64 v3 21 ^^^ v0
  let v2 := rotl64 v2 32
  ⟨v0, v1, v2, v3⟩

/-- Little-endian value of a byte list (first byte least significant);
missing trailing bytes read as zero, as in the tail `switch` of pyhash.c. -/
def le64 (bs : List Nat) : Nat :=
  bs.foldr (fun b acc => b + 256 * acc) 0

/-- The main loop of siphash13: consume `n` 8-byte blocks from the front of
the message. -/
def sipBlocks : Nat → SipState → List Nat → SipState × List Nat
  | 0, s, bs => (s, bs)
  | n + 1, s, bs =>
      let mi := le64 (bs.take 8)
      let s1 := sipRound ⟨s.v0, s.v1, s.v2, s.v3 ^^^ mi⟩
      sipBlocks n ⟨s1.v0 ^^^ mi, s1.v1, s1.v2, s1.v3⟩ (bs.drop 8)

/-- `siphash13(k0, k1, src, src_sz)` from Python/pyhash.c (CPython 3.11+). -/
def siphash13 (k0 k1 : Nat) (src : List Nat) : Nat :=
  let v0 := k0 ^^^ 0x736f6d6570736575
  let v1 := k1 ^^^ 0x646f72616e646f6d
  let v2 := k0 ^^^ 0x6c7967656e657261
  let v3 := k1 ^^^ 0x7465646279746573
  let sr := sipBlocks (src.length / 8) ⟨v0, v1, v2, v3⟩ src
  let b := ((src.length <<< 56) % 2 ^ 64) ||| le64 sr.2
  let s1 := sipRound ⟨sr.1.v0, sr.1.v1, sr.1.v2, sr.1.v3 ^^^ b⟩
  let s2 : SipState := ⟨s1.v0 ^^^ b, s1.v1, s1.v2 ^^^ 0xff, s1.v3⟩
  let s3 := sipRound (sipRound (sipRound s2))
  (s3.v0 ^^^ s3.v1) ^^^ (s3.v2 ^^^ s3.v3)

/-- Reinterpret a 64-bit unsigned value as a signed `Py_hash_t`. -/
def toInt64 (x : Nat) : Int :=
  if x < 2 ^ 63 then (x : Int) else (x : Int) - 2 ^ 64

/-- CPython `hash()` of a bytes-like/ASCII-str value (`_Py_HashBytes`):
0 for the empty input, otherwise the signed siphash value with -1 mapped
to -2. -/
def pyHash_bytes (k0 k1 : Nat) (src : List Nat) : Int :=
  if src = [] then 0
  else
    let h := toInt64 (siphash13 k0 k1 src)
    if h = -1 then -2 else h

/-- `lcg_urandom` of Python/bootstrap_hash.c: the byte stream derived from a
`PYTHONHASHSEED` value. -/
def lcg_list : Nat → Nat → List Nat
  | _, 0 => []
  | x, n + 1 =>
      let x1 := (x * 214013 + 2531011) % 2 ^ 32
      ((x1 >>> 16) &&& 0xff) :: lcg_list x1 n

/-- The SipHash key CPython installs for a given `PYTHONHASHSEED`: seed 0
disables randomisation (all-zero key); otherwise the first 16 LCG bytes,
read little-endian (the default, with the variable unset, is instead a
fresh random 128-bit key per process). -/
def hash_key_from_seed (seed : Nat) : Nat × Nat :=
  if seed = 0 then (0, 0)
  else
    let bytes := lcg_list (seed % 2 ^ 32) 16
    (le64 (bytes.take 8), le64 (bytes.drop 8))

/-- `point_id = abs(hash(file_id)) % (10**18)` from src/app.py line 141, for
a process whose string-hash key is `(k0, k1)` and an ASCII file id given as
its byte list. -/
def point_id (k0 k1 : Nat) (file_id : List Nat) : Nat :=
  (pyHash_bytes k0 k1 file_id).natAbs % 10 ^ 18

/-! ### Chunker lemmas -/

theorem chunk_text_eq (text : List Char) (M : Nat) :
    chunk_text text M =
      (List.range ((text.length + M - 1) / M)).map
        (fun k => (text.drop (k * M)).take M) := by
  simp [chunk_text, pyRange, pySlice, List.map_map, Function.comp_def]

theorem ceil_div_succ {n M : Nat} (hM : 0 < M) (hn : 1 ≤ n) :
    (n + M - 1) / M = (n - 1) / M + 1 := by
  have h : n + M - 1 = (n - 1) + M := by omega
  rw [h, Nat.add_div_right _ hM]

theorem chunk_slices_join (M : Nat) (hM : 0 < M) :
    ∀ (q : Nat) (text : List Char), (text.length + M - 1) / M = q →
      ((List.range q).map (fun k => (text.drop (k * M)).take M)).flatten = text := by
  intro q
  induction q with
  | zero =>
    intro text hq
    have hlen : text.length = 0 := by
      by_contra hne
      rw [ceil_div_succ hM (by omega)] at hq
      exact Nat.succ_ne_zero _ hq
    rw [List.length_eq_zero.mp hlen]
    simp
  | succ q ih =>
    intro text hq
    have hn : 1 ≤ text.length := by
      by_contra hne
      have h0 : text.length = 0 := by omega
      rw [h0, Nat.div_eq_of_lt (show 0 + M - 1 < M by omega)] at hq
      exact Nat.succ_ne_zero _ hq.symm
    rw [List.range_succ_eq_map, List.map_cons, List.map_map, List.flatten_cons]
    have htail :
        (List.map ((fun k => (text.drop (k * M)).take M) ∘ Nat.succ) (List.range q)) =
        (List.range q).map (fun k => ((text.drop M).drop (k * M)).take M) := by
      apply List.map_congr_left
      intro k _
      simp only [Function.comp_apply, List.drop_drop]
      have hkm : Nat.succ k * M = M + k * M := by
        rw [Nat.succ_mul, Nat.add_comm]
      rw [hkm]
    have hcount : ((text.drop M).length + M - 1) / M = q := by
      rw [List.length_drop]
      rcases le_or_lt text.length M with hle | hlt
      · have h1 : text.length - M = 0 := by omega
        rw [h1, Nat.div_eq_of_lt (show 0 + M - 1 < M by omega)]
        rw [ceil_div_succ hM hn,
          Nat.div_eq_of_lt (show text.length - 1 < M by omega)] at hq
        omega
      · have h2 : text.length - M + M - 1 = text.length - 1 := by omega
        rw [h2]
        rw [ceil_div_succ hM hn] at hq
        exact Nat.add_right_cancel hq
    rw [htail, ih (text.drop M) hcount]
    simp [Nat.zero_mul]

/-- C1: for every text T and every maximum chunk size M > 0, chunk_text
returns an ordered sequence of substrings whose in-order concatenation
reproduces T exactly (hence they are non-overlapping and cover T once), each
chunk has length at most M, the chunk count is ceil(len(T)/M), and empty
input yields the empty sequence. -/
theorem c1_chunker_correct (text : List Char) (M : Nat) (hM : 0 < M) :
    (chunk_text text M).flatten = text ∧
    (∀ c ∈ chunk_text text M, c.length ≤ M) ∧
    (chunk_text text M).length = (text.length + M - 1) / M ∧
    (text = [] → chunk_text text M = []) := by
  refine ⟨?_, ?_, ?_, ?_⟩
  · rw [chunk_text_eq]
    exact chunk_slices_join M hM _ text rfl
  · intro c hc
    rw [chunk_text_eq] at hc
    obtain ⟨k, _, hk⟩ := List.mem_map.mp hc
    rw [← hk]
    exact List.length_take_le _ _
  · rw [chunk_text_eq]
    simp
  · intro h
    subst h
    rw [chunk_text_eq]
    simp only [List.length_nil, Nat.zero_add,
      Nat.div_eq_of_lt (show M - 1 < M by omega), List.range_zero, List.map_nil]

/-- Witness for C1 at T = "abcde", M = 2 (chunks "ab", "cd", "e"). -/
theorem c1_chunker_correct_witness :
    (chunk_text ("abcde").toList 2).flatten = ("abcde").toList ∧
    (∀ c ∈ chunk_text ("abcde").toList 2, c.length ≤ 2) ∧
    (chunk_text ("abcde").toList 2).length = (("abcde").toList.length + 2 - 1) / 2 ∧
    (("abcde").toList = [] → chunk_text ("abcde").toList 2 = []) :=
  c1_chunker_correct ("abcde").toList 2 (by decide)

/-- C6: for every input text, if the embedding call fails, get_embedding
returns (rather than raising) a vector of exactly the configured
dimensionality 768 with every component equal to zero. -/
theorem c6_embedding_failure_sentinel
    (embed : List Char → Except String (List ℚ)) (text : List Char) (e : String)
    (hfail : embed text = .error e) :
    get_embedding embed text = List.replicate VECTOR_SIZE 0 ∧
    (get_embedding embed text).length = 768 ∧
    ∀ x ∈ get_embedding embed text, x = 0 := by
  have h : get_embedding embed text = List.replicate VECTOR_SIZE 0 := by
    simp [get_embedding, hfail]
  refine ⟨h, ?_, ?_⟩
  · rw [h, List.length_replicate]
    rfl
  · rw [h]
    intro x hx
    exact List.eq_of_mem_replicate hx

/-- Witness for C6: an embedding oracle that always raises. -/
theorem c6_embedding_failure_sentinel_witness :
    get_embedding (fun _ => .error "service down") ("hello").toList
        = List.replicate VECTOR_SIZE 0 ∧
    (get_embedding (fun _ => .error "service down") ("hello").toList).length = 768 ∧
    ∀ x ∈ get_embedding (fun _ => .error "service down") ("hello").toList, x = 0 :=
  c6_embedding_failure_sentinel _ _ "service down" rfl

/-- C8: for every query, if the embedding of the query is the all-zero
sentinel (in particular whenever the embedding call fails) search_qdrant
returns no results; if the underlying search call fails it returns the empty
sequence rather than raising; and, given that the store honours the `limit`
argument, it returns at most top_k scored matches (top_k defaulting to 3 in
the definition). -/
theorem c8_search_failure_and_limit (env : SearchEnv) (query : List Char) (top_k : Nat) :
    (∀ e, env.embed query = .error e → search_qdrant env query top_k = []) ∧
    ((∀ x ∈ get_embedding env.embed query, x = 0) →
        search_qdrant env query top_k = []) ∧
    (∀ e, env.search (get_embedding env.embed query) top_k = .error e →
        search_qdrant env query top_k = []) ∧
    ((∀ v k r, env.search v k = .ok r → r.length ≤ k) →
        (search_qdrant env query top_k).length ≤ top_k) := by
  refine ⟨?_, ?_, ?_, ?_⟩
  · intro e he
    have hg : get_embedding env.embed query = List.replicate VECTOR_SIZE 0 := by
      simp [get_embedding, he]
    simp only [search_qdrant, hg]
    rw [if_pos]
    simp only [List.all_eq_true, beq_iff_eq]
    intro x hx
    exact List.eq_of_mem_replicate hx
  · intro hz
    simp only [search_qdrant]
    rw [if_pos]
    simp only [List.all_eq_true, beq_iff_eq]
    exact hz
  · intro e he
    simp only [search_qdrant]
    split
    · rfl
    · rw [he]
  · intro hlim
    simp only [search_qdrant]
    split
    · simp
    · rcases hs : env.search (get_embedding env.embed query) top_k with e | r
      · simp
      · simpa using hlim _ _ _ hs

/-- Witness for C8: a failing embedding oracle yields no results, and with a
store honouring the limit the result count is bounded by 3. -/
theorem c8_search_failure_and_limit_witness :
    search_qdrant ⟨fun _ => .error "down", fun _ _ => .ok []⟩ ("q").toList 3 = [] ∧
    (search_qdrant ⟨fun _ => .ok [(1 : ℚ)], fun _ _ => .ok []⟩ ("q").toList 3).length ≤ 3 :=
  ⟨(c8_search_failure_and_limit _ _ 3).1 "down" rfl,
   (c8_search_failure_and_limit _ _ 3).2.2.2
     (fun v k r h => by cases h; simp)⟩

/-- C9: generate_answer inserts only the first 8000 characters of the context
into the fixed prompt (it is insensitive to anything beyond them), and
returns the stripped model text when that is non-empty, the exact string
"Could not generate a clear answer." when the model output is absent or
strips to empty, and the fixed error string when the call fails. -/
theorem c9_generate_answer_contract (env : GenEnv) (query context : List Char) :
    (∀ c2 : List Char, context.take 8000 = c2.take 8000 →
        generate_answer env query context = generate_answer env query c2) ∧
    (∀ t, env.generate (build_prompt query (context.take 8000)) = .ok (some t) →
        py_strip t ≠ [] → generate_answer env query context = py_strip t) ∧
    (∀ t, env.generate (build_prompt query (context.take 8000)) = .ok (some t) →
        py_strip t = [] →
        generate_answer env query context
          = ("Could not generate a clear answer.").toList) ∧
    (env.generate (build_prompt query (context.take 8000)) = .ok none →
        generate_answer env query context
          = ("Could not generate a clear answer.").toList) ∧
    (∀ e, env.generate (build_prompt query (context.take 8000)) = .error e →
        generate_answer env query context
          = ("An error occurred while generating the answer.").toList) := by
  refine ⟨?_, ?_, ?_, ?_, ?_⟩
  · intro c2 h
    simp only [generate_answer]
    rw [h]
  · intro t ht hne
    simp [generate_answer, ht, hne]
  · intro t ht hz
    simp [generate_answer, ht, hz]
  · intro h
    simp [generate_answer, h]
  · intro e he
    simp [generate_answer, he]

/-- Witness for C9: a model returning " An answer. ", a model returning no
text, and a failing model call, on concrete query and context. -/
theorem c9_generate_answer_contract_witness :
    generate_answer ⟨fun _ => .ok (some ((" An answer. ").toList))⟩
        ("q").toList ("ctx").toList = py_strip ((" An answer. ").toList) ∧
    generate_answer ⟨fun _ => .ok none⟩ ("q").toList ("ctx").toList
        = ("Could not generate a clear answer.").toList ∧
    generate_answer ⟨fun _ => .error "boom"⟩ ("q").toList ("ctx").toList
        = ("An error occurred while generating the answer.").toList :=
  ⟨(c9_generate_answer_contract _ _ _).2.1 _ rfl (by decide),
   (c9_generate_answer_contract _ _ _).2.2.2.1 rfl,
   (c9_generate_answer_contract _ _ _).2.2.2.2 "boom" rfl⟩

/-! ### Indexer lemmas -/

theorem np_mean_singleton (v : List ℚ) : np_mean [v] = v := by
  apply List.ext_getElem
  · simp [np_mean]
  · intro i h1 h2
    simp only [np_mean, List.getElem_map, List.getElem_range, List.map_cons,
      List.map_nil, List.sum_cons, List.sum_nil, List.length_cons,
      List.length_nil]
    rw [List.getD_eq_getElem?_getD, List.getElem?_eq_getElem h2]
    simp

theorem np_mean_eq_mean_spec (vs : List (List ℚ)) (d : Nat)
    (hne : vs ≠ []) (hd : ∀ v ∈ vs, v.length = d) :
    np_mean vs = mean_spec vs d := by
  cases vs with
  | nil => exact absurd rfl hne
  | cons v rest =>
    simp only [np_mean, mean_spec]
    rw [hd v (List.mem_cons_self _ _)]

theorem get_embedding_length (embed : List Char → Except String (List ℚ))
    (hdim : ∀ t v, embed t = .ok v → v.length = VECTOR_SIZE) (t : List Char) :
    (get_embedding embed t).length = VECTOR_SIZE := by
  unfold get_embedding
  cases h : embed t with
  | ok v => exact hdim _ _ h
  | error e => exact List.length_replicate _ _

theorem processContent_snd_ok (env : Env) (name fid content : List Char)
    (hup : ∀ p, env.upsert p = .ok ()) :
    (processContent env name fid content).2 = .ok () := by
  simp only [processContent, hup]
  split <;> rfl

theorem processFile_snd_ok (env : Env) (name fid mt : List Char)
    (hup : ∀ p, env.upsert p = .ok ()) :
    (processFile env name fid mt).2 = .ok () := by
  simp only [processFile]
  split
  · rfl
  · exact processContent_snd_ok env name fid _ hup

theorem processItem_snd_ok (env : Env) (item : Item)
    (hup : ∀ p, env.upsert p = .ok ()) :
    (processItem env item).2 = .ok () := by
  obtain ⟨oid, name, omt⟩ := item
  cases omt with
  | none => rfl
  | some mt =>
    cases oid with
    | none =>
      by_cases hmem : mt ∉ allowed_types <;> simp [processItem, hmem]
    | some fid =>
      by_cases hmem : mt ∉ allowed_types
      · simp [processItem, hmem]
      · by_cases hfid : fid = [] <;>
          simp [processItem, hmem, hfid, processFile_snd_ok env name fid mt hup]

theorem processItems_eq_flatten (env : Env)
    (hup : ∀ p, env.upsert p = .ok ()) :
    ∀ items : List Item,
      processItems env items
        = ((items.map (fun it => (processItem env it).1)).flatten, .ok ()) := by
  intro items
  induction items with
  | nil => rfl
  | cons it rest ih =>
    have h2 := processItem_snd_ok env it hup
    rcases hpi : processItem env it with ⟨evs, r⟩
    rw [hpi] at h2
    simp only at h2
    subst h2
    simp only [processItems, hpi, ih, List.map_cons, List.flatten_cons]

theorem fetched_mem_processContent {env : Env} {name fid2 content fid : List Char}
    (h : Event.fetched fid ∈ (processContent env name fid2 content).1) :
    fid = fid2 := by
  simp only [processContent] at h
  split at h
  · simp at h
    exact h
  · split at h <;> (simp at h; exact h)

theorem fetched_mem_processFile {env : Env} {name fid2 mt fid : List Char}
    (h : Event.fetched fid ∈ (processFile env name fid2 mt).1) : fid = fid2 := by
  simp only [processFile] at h
  split at h
  · simp at h
    exact h
  · exact fetched_mem_processContent h

theorem fetched_mem_processItem {env : Env} {item : Item} {fid : List Char}
    (h : Event.fetched fid ∈ (processItem env item).1) : item.id = some fid := by
  obtain ⟨oid, name, omt⟩ := item
  cases omt with
  | none => simp [processItem] at h
  | some mt =>
    cases oid with
    | none =>
      by_cases hmem : mt ∉ allowed_types <;> simp [processItem, hmem] at h
    | some fid2 =>
      by_cases hmem : mt ∉ allowed_types
      · simp [processItem, hmem] at h
      · by_cases hfid : fid2 = []
        · simp [processItem, hmem, hfid] at h
        · have hred : processItem env ⟨some fid2, name, some mt⟩
              = processFile env name fid2 mt := by
            simp [processItem, hmem, hfid]
          rw [hred] at h
          have heq := fetched_mem_processFile h
          simp [heq]

theorem fetched_mem_processItems {env : Env} {fid : List Char} :
    ∀ {items : List Item}, Event.fetched fid ∈ (processItems env items).1 →
      ∃ item ∈ items, item.id = some fid := by
  intro items
  induction items with
  | nil =>
    intro h
    simp [processItems] at h
  | cons it rest ih =>
    intro h
    rcases hpi : processItem env it with ⟨evs, r⟩
    simp only [processItems, hpi] at h
    cases r with
    | error e =>
      simp only at h
      exact ⟨it, List.mem_cons_self _ _,
        fetched_mem_processItem (by rw [hpi]; exact h)⟩
    | ok u =>
      simp only [List.mem_append] at h
      rcases h with h | h
      · exact ⟨it, List.mem_cons_self _ _,
          fetched_mem_processItem (by rw [hpi]; exact h)⟩
      · obtain ⟨item, hmem, hid⟩ := ih h
        exact ⟨item, List.mem_cons_of_mem _ hmem, hid⟩

theorem upserted_mem_processContent {env : Env} {name fid content : List Char}
    {p : PointStruct}
    (h : Event.upserted p ∈ (processContent env name fid content).1) :
    p = mkPoint env name fid content ∧
    (chunk_text content).map (get_embedding env.embed) ≠ [] := by
  simp only [processContent] at h
  split at h
  · simp at h
  · next hne =>
    split at h <;> (simp at h; exact ⟨h, hne⟩)

theorem upserted_mem_processFile {env : Env} {name fid mt : List Char}
    {p : PointStruct}
    (h : Event.upserted p ∈ (processFile env name fid mt).1) :
    p = mkPoint env name fid (read_file env fid mt) ∧
    (chunk_text (read_file env fid mt)).map (get_embedding env.embed) ≠ [] := by
  simp only [processFile] at h
  split at h
  · simp at h
  · exact upserted_mem_processContent h

theorem upserted_mem_processItem {env : Env} {item : Item} {p : PointStruct}
    (h : Event.upserted p ∈ (processItem env item).1) :
    ∃ file_id mt, item.id = some file_id ∧ item.mimeType = some mt ∧
      p = mkPoint env item.name file_id (read_file env file_id mt) ∧
      (chunk_text (read_file env file_id mt)).map (get_embedding env.embed) ≠ [] := by
  obtain ⟨oid, name, omt⟩ := item
  cases omt with
  | none => simp [processItem] at h
  | some mt =>
    cases oid with
    | none =>
      by_cases hmem : mt ∉ allowed_types <;> simp [processItem, hmem] at h
    | some fid2 =>
      by_cases hmem : mt ∉ allowed_types
      · simp [processItem, hmem] at h
      · by_cases hfid : fid2 = []
        · simp [processItem, hmem, hfid] at h
        · have hred : processItem env ⟨some fid2, name, some mt⟩
              = processFile env name fid2 mt := by
            simp [processItem, hmem, hfid]
          rw [hred] at h
          obtain ⟨hpt, hne⟩ := upserted_mem_processFile h
          exact ⟨fid2, mt, rfl, rfl, hpt, hne⟩

/-! ### Concrete runs used as counterexamples and witnesses -/

/-- A 26-character whitespace-free content value. -/
def content26 : List Char := ("abcdefghijklmnopqrstuvwxyz").toList

/-- A well-formed plain-text listing entry. -/
def itemF1 : Item :=
  { id := some ("f1").toList, name := ("doc").toList,
    mimeType := some ("text/plain").toList }

/-- A second well-formed plain-text listing entry. -/
def itemF2 : Item :=
  { id := some ("f2").toList, name := ("doc2").toList,
    mimeType := some ("text/plain").toList }

/-- A listing entry whose declared content type is outside the allow-list. -/
def itemBadMime : Item :=
  { id := some ("f3").toList, name := ("img").toList,
    mimeType := some ("image/png").toList }

/-- Indexing environment in which fetching and embedding succeed but the
vector-store upsert call raises. -/
def envUpsertFail : Env :=
  { pyhash := fun _ => 0,
    fetch := fun _ _ => .ok content26,
    embed := fun _ => .ok [1],
    upsert := fun _ => .error "upsert failed" }

/-- Indexing environment in which every embedding call raises. -/
def envEmbedDown : Env :=
  { pyhash := fun _ => 0,
    fetch := fun _ _ => .ok content26,
    embed := fun _ => .error "embedding service down",
    upsert := fun _ => .ok () }

/-- Indexing environment in which both fetch and embed always raise and the
store works. -/
def envFlaky : Env :=
  { pyhash := fun _ => 0,
    fetch := fun _ _ => .error "network down",
    embed := fun _ => .error "embed down",
    upsert := fun _ => .ok () }

/-- Indexing environment returning a 4-character document. -/
def envShort : Env :=
  { pyhash := fun _ => 0,
    fetch := fun _ _ => .ok ("tiny").toList,
    embed := fun _ => .ok [1],
    upsert := fun _ => .ok () }

/-- Indexing environment returning empty content. -/
def envNoContent : Env :=
  { pyhash := fun _ => 0,
    fetch := fun _ _ => .ok [],
    embed := fun _ => .ok [1],
    upsert := fun _ => .ok () }

/-- Indexing environment in which every external call succeeds and embeddings
have the configured dimensionality. -/
def envGood : Env :=
  { pyhash := fun _ => 0,
    fetch := fun _ _ => .ok content26,
    embed := fun _ => .ok (List.replicate VECTOR_SIZE 1),
    upsert := fun _ => .ok () }

/-! ### Claims C2 to C10 -/

/-- C2 counterexample: with a single listed file whose (single) upsert call
raises, the whole indexing pass ends in that error: the failure of one
per-file step is re-raised rather than contained, refuting the claim that
the pass does not raise for a single file's failure. -/
theorem c2_upsert_failure_raises :
    (process_drive_files envUpsertFail (.ok [itemF1])).2 = .error "upsert failed" := by
  rfl

/-- C2 amended: failures of the per-file fetch and embed steps are contained
(fetch failures yield empty content and a skip, embed failures yield the zero
sentinel) and processing continues with the next file — whenever the listing
succeeded and no upsert call fails, the pass completes without raising,
having processed every listed file in order; only an upsert failure (or a
listing failure) makes the pass raise. -/
theorem c2_fetch_embed_failures_contained (env : Env) (items : List Item)
    (hup : ∀ p, env.upsert p = .ok ()) :
    process_drive_files env (.ok items)
      = ((items.map (fun it => (processItem env it).1)).flatten, .ok ()) := by
  simp only [process_drive_files]
  exact processItems_eq_flatten env hup items

/-- Witness for C2 (amended): both fetch and embed raise on both of two
files; the pass still completes, with both files visited. -/
theorem c2_fetch_embed_failures_contained_witness :
    process_drive_files envFlaky (.ok [itemF1, itemF2])
      = ((([itemF1, itemF2]).map (fun it => (processItem envFlaky it).1)).flatten,
          .ok ()) :=
  c2_fetch_embed_failures_contained envFlaky [itemF1, itemF2] (fun _ => rfl)

set_option maxRecDepth 4000 in
/-- C3 (code bug): with every embedding call raising on a 26-character
document, the pass does complete without raising, but the document is NOT
skipped: a point for it, whose vector is the all-zero 768-dimensional
sentinel, is upserted into the store. -/
theorem c3_all_embeddings_fail_still_upserts :
    (process_drive_files envEmbedDown (.ok [itemF1])).2 = .ok () ∧
    ∃ p, Event.upserted p ∈ (process_drive_files envEmbedDown (.ok [itemF1])).1 ∧
      p.vector = List.replicate VECTOR_SIZE 0 := by
  constructor
  · rfl
  · refine ⟨mkPoint envEmbedDown ("doc").toList ("f1").toList content26, ?_, ?_⟩
    · have htrace : (process_drive_files envEmbedDown (.ok [itemF1])).1
          = [Event.fetched ("f1").toList, Event.embedded content26,
             Event.upserted
               (mkPoint envEmbedDown ("doc").toList ("f1").toList content26)] := by
        rfl
      rw [htrace]
      simp
    · have hemb : (chunk_text content26).map (get_embedding envEmbedDown.embed)
          = [List.replicate VECTOR_SIZE 0] := by
        rfl
      show np_mean ((chunk_text content26).map (get_embedding envEmbedDown.embed))
          = List.replicate VECTOR_SIZE 0
      rw [hemb]
      exact np_mean_singleton _

/-- C4 (code bug): the upsert identifier `abs(hash(file_id)) % 10**18` is not
a function of the file id alone: for the file id "a" (byte 97), the processes
whose hash keys come from PYTHONHASHSEED=0 and PYTHONHASHSEED=1 derive
different identifiers, so the identifier is not stable across runs or
processes as the claim requires. -/
theorem c4_point_id_not_stable_across_processes :
    point_id (hash_key_from_seed 0).1 (hash_key_from_seed 0).2 [97]
      ≠ point_id (hash_key_from_seed 1).1 (hash_key_from_seed 1).2 [97] := by
  decide

/-- C5: the indexer skip rules.  A file whose declared content type is not in
the allow-list is never fetched (its loop body performs no effect at all); a
file whose fetched content is shorter than 20 characters is never embedded or
upserted; and a file for which the list of chunk embedding vectors is empty
is never upserted. -/
theorem c5_indexer_skip_rules (env : Env) (item : Item) :
    ((∀ mt, item.mimeType = some mt → mt ∉ allowed_types) →
        processItem env item = ([], .ok ())) ∧
    (∀ file_id mt, item.id = some file_id → item.mimeType = some mt →
        (read_file env file_id mt).length < 20 →
        (processItem env item).1.all
          (fun ev => !isEmbeddedEv ev && !isUpsertedEv ev) = true) ∧
    (∀ file_id mt, item.id = some file_id → item.mimeType = some mt →
        (chunk_text (read_file env file_id mt)).map (get_embedding env.embed) = [] →
        (processItem env item).1.all (fun ev => !isUpsertedEv ev) = true) := by
  obtain ⟨oid, name, omt⟩ := item
  refine ⟨?_, ?_, ?_⟩
  · intro hmt
    cases omt with
    | none => rfl
    | some mt => simp [processItem, hmt mt rfl]
  · intro fid mt hid hmt hlen
    have hid2 : oid = some fid := hid
    have hmt2 : omt = some mt := hmt
    subst hid2
    subst hmt2
    by_cases hmem : mt ∉ allowed_types
    · simp [processItem, hmem]
    · by_cases hfid : fid = []
      · simp [processItem, hmem, hfid]
      · simp [processItem, hmem, hfid, processFile, if_pos hlen,
          isEmbeddedEv, isUpsertedEv]
  · intro fid mt hid hmt hemb
    have hid2 : oid = some fid := hid
    have hmt2 : omt = some mt := hmt
    subst hid2
    subst hmt2
    by_cases hmem : mt ∉ allowed_types
    · simp [processItem, hmem]
    · by_cases hfid : fid = []
      · simp [processItem, hmem, hfid]
      · by_cases hlen : (read_file env fid mt).length < 20
        · simp [processItem, hmem, hfid, processFile, if_pos hlen, isUpsertedEv]
        · have hch : chunk_text (read_file env fid mt) = [] :=
            List.map_eq_nil_iff.mp hemb
          simp [processItem, hmem, hfid, processFile, if_neg hlen,
            processContent, hemb, hch, isUpsertedEv]

/-- Witness for C5: a png file is skipped with no effect at all; a
4-character document produces no embed or upsert effect; an empty document
produces no upsert effect. -/
theorem c5_indexer_skip_rules_witness :
    processItem envShort itemBadMime = ([], .ok ()) ∧
    (processItem envShort itemF1).1.all
        (fun ev => !isEmbeddedEv ev && !isUpsertedEv ev) = true ∧
    (processItem envNoContent itemF1).1.all (fun ev => !isUpsertedEv ev) = true :=
  ⟨(c5_indexer_skip_rules envShort itemBadMime).1
      (fun mt h => by cases h; decide),
   (c5_indexer_skip_rules envShort itemF1).2.1 _ _ rfl rfl (by decide),
   (c5_indexer_skip_rules envNoContent itemF1).2.2 _ _ rfl rfl (by decide)⟩

/-- C7: any point upserted while processing an item belongs to that item's
file, and its stored vector equals the element-wise mean, in the sense of
mean_spec, of the per-chunk embedding vectors of its fetched content —
provided the embedding service only returns vectors of the configured
dimensionality 768 (the failure sentinel already has it). -/
theorem c7_stored_vector_is_mean (env : Env) (item : Item) (p : PointStruct)
    (hdim : ∀ t v, env.embed t = .ok v → v.length = VECTOR_SIZE)
    (hp : Event.upserted p ∈ (processItem env item).1) :
    ∃ file_id mt, item.id = some file_id ∧ item.mimeType = some mt ∧
      p.vector = mean_spec
        ((chunk_text (read_file env file_id mt)).map (get_embedding env.embed))
        VECTOR_SIZE := by
  obtain ⟨fid, mt, hid, hmt, hpt, hne⟩ := upserted_mem_processItem hp
  refine ⟨fid, mt, hid, hmt, ?_⟩
  rw [hpt]
  show np_mean ((chunk_text (read_file env fid mt)).map (get_embedding env.embed))
      = _
  apply np_mean_eq_mean_spec _ _ hne
  intro v hv
  obtain ⟨c, _, hc⟩ := List.mem_map.mp hv
  rw [← hc]
  exact get_embedding_length env.embed hdim c

/-- Witness for C7: a fully successful run on a 26-character document whose
single chunk embeds to the all-ones vector. -/
theorem c7_stored_vector_is_mean_witness :
    ∃ file_id mt, itemF1.id = some file_id ∧ itemF1.mimeType = some mt ∧
      (mkPoint envGood ("doc").toList ("f1").toList content26).vector = mean_spec
        ((chunk_text (read_file envGood file_id mt)).map (get_embedding envGood.embed))
        VECTOR_SIZE :=
  c7_stored_vector_is_mean envGood itemF1
    (mkPoint envGood ("doc").toList ("f1").toList content26)
    (fun t v h => by cases h; exact List.length_replicate _ _)
    (by have htrace : (processItem envGood itemF1).1
          = [Event.fetched ("f1").toList, Event.embedded content26,
             Event.upserted
               (mkPoint envGood ("doc").toList ("f1").toList content26)] := rfl
        rw [htrace]
        simp)

/-- C10: the indexing pass issues a single listing request of page size 100
and never a follow-up page: the page never exceeds 100 items, the entire pass
is insensitive to any account files beyond the first 100 non-trashed ones,
and every file the pass fetches is among those first 100. -/
theorem c10_single_page_of_100 (env : Env) (acct acct2 : List DriveFile)
    (h : (acct.filter (fun f => !f.trashed)).take 100
        = (acct2.filter (fun f => !f.trashed)).take 100) :
    (drive_list acct 100).length ≤ 100 ∧
    process_drive_files env (.ok (drive_list acct 100))
      = process_drive_files env (.ok (drive_list acct2 100)) ∧
    (∀ fid, Event.fetched fid ∈ (process_drive_files env (.ok (drive_list acct 100))).1 →
        ∃ f ∈ (acct.filter (fun f => !f.trashed)).take 100, f.id = some fid) := by
  have hdl : drive_list acct 100 = drive_list acct2 100 := by
    simp only [drive_list, h]
  refine ⟨?_, ?_, ?_⟩
  · simp only [drive_list, List.length_map]
    exact List.length_take_le _ _
  · rw [hdl]
  · intro fid hf
    simp only [process_drive_files] at hf
    obtain ⟨item, hmem, hid⟩ := fetched_mem_processItems hf
    simp only [drive_list, List.mem_map] at hmem
    obtain ⟨f, hfmem, hfi⟩ := hmem
    refine ⟨f, hfmem, ?_⟩
    rw [← hfi] at hid
    exact hid

/-- A non-trashed account file used in the C10 witness. -/
def fileA : DriveFile :=
  { id := some ("a").toList, name := ("n").toList,
    mimeType := some ("text/plain").toList, trashed := false }

/-- Witness for C10: an account of 101 identical non-trashed files is
processed identically to one holding only the first 100. -/
theorem c10_single_page_of_100_witness :
    (drive_list (List.replicate 101 fileA) 100).length ≤ 100 ∧
    process_drive_files envGood (.ok (drive_list (List.replicate 101 fileA) 100))
      = process_drive_files envGood (.ok (drive_list (List.replicate 100 fileA) 100)) ∧
    (∀ fid, Event.fetched fid ∈
        (process_drive_files envGood (.ok (drive_list (List.replicate 101 fileA) 100))).1 →
        ∃ f ∈ ((List.replicate 101 fileA).filter (fun f => !f.trashed)).take 100,
          f.id = some fid) :=
  c10_single_page_of_100 envGood (List.replicate 101 fileA)
    (List.replicate 100 fileA) (by decide)

end Drive2Chat
